import Mathlib

/-!
Verification development for the `PythonStuff` repository.

This file gives a shallow embedding of the parts of the repository that the
claims are about:

* `utils/webrequest.py` — the `WebRequester` class: URL normalization in
  `__init__`, URL concatenation and header merging in `invoke`, response
  classification in `invoke_and_handle`, the status-code-to-exception
  dispatch `status_code_to_exception` and the exception hierarchy, and
  `set_default_headers` / `set_authorization`.
* `templates/template_api_client.py` — the `Client` class: the token
  handshake `__get_or_refresh_token` and `get_resource` with its reactive
  401 invalidation and optional `as_dict` reshaping.

Modelling conventions:
* Python `str` is modelled as Lean `String` where only equality and
  concatenation matter, and as `List Char` for the URL functions, where
  prefix/suffix structure is reasoned about.
* Python `dict` is modelled as an association list in insertion order with
  Python's update semantics (overwrite in place, append when new).
* Decoded JSON bodies are modelled by the inductive `Json` (numbers are
  carried as `Int`; float payloads are outside the model).
* `raise` is modelled by `Except`: a raised exception is an `Except.error`.
* The network is an oracle: functions take the `Response` the server would
  return.  A `Response` carries the decode outcome `decoded` directly
  (`none` models `response.json()` raising).
-/

namespace PythonStuff

/-! ## Python dict operations (insertion-ordered association lists)

`d[k] = v` keeps the position of an existing key and appends a fresh one;
`d.update(u)` applies `d[k] = v` for each pair of `u` in order;
`k in d` is key membership; `d[k]` is lookup. -/

def dictSet {α : Type} : List (String × α) → String → α → List (String × α)
  | [], k, v => [(k, v)]
  | p :: rest, k, v => if p.1 = k then (k, v) :: rest else p :: dictSet rest k v

def dictUpdate {α : Type} (d u : List (String × α)) : List (String × α) :=
  u.foldl (fun acc p => dictSet acc p.1 p.2) d

def dictLookup {α : Type} : List (String × α) → String → Option α
  | [], _ => none
  | p :: rest, k => if p.1 = k then some p.2 else dictLookup rest k

def dictHasKey {α : Type} : List (String × α) → String → Bool
  | [], _ => false
  | p :: rest, k => if p.1 = k then true else dictHasKey rest k

/-- Python `needle in haystack` for strings: substring containment. -/
def containsSeq (needle : List Char) : List Char → Bool
  | [] => needle.isEmpty
  | c :: rest => needle.isPrefixOf (c :: rest) || containsSeq needle rest

/-- Python `s.startswith(pre)`. -/
def pyStartswith (pre s : List Char) : Bool := pre.isPrefixOf s

/-- Python `s.endswith(suf)`. -/
def pyEndswith (suf s : List Char) : Bool := suf.isSuffixOf s

/-- Python `str.lower` on an ASCII character. -/
def pyLowerChar (c : Char) : Char :=
  if 'A' ≤ c ∧ c ≤ 'Z' then Char.ofNat (c.toNat + 32) else c

/-- Python `str.lower` (ASCII fragment, which is all the source compares). -/
def pyLower (s : String) : String := String.mk (s.data.map pyLowerChar)

/-! ## URL normalization and building

`WebRequester.__init__` (webrequest.py lines 63-69): drop a single trailing
"/" from `base_url`, then prepend "https://" unless the result already
matches the scheme regex `^http(s)?://`.
`WebRequester.invoke` (lines 183-186): concatenate the endpoint, inserting a
"/" only when the endpoint does not already start with one. -/

/-- `base_url[:-1] if base_url[-1] == "/" else base_url`. -/
def stripTrailing (s : List Char) : List Char :=
  if s.getLast? = some '/' then s.dropLast else s

/-- The scheme regex `^http(s)?://` of webrequest.py line 68. -/
def hasScheme (s : List Char) : Bool :=
  pyStartswith "http://".toList s || pyStartswith "https://".toList s

/-- The `_base_url` attribute as left by `WebRequester.__init__`. -/
def normBase (base_url : List Char) : List Char :=
  if hasScheme (stripTrailing base_url) then stripTrailing base_url
  else "https://".toList ++ stripTrailing base_url

/-! ## Decoded JSON values -/

inductive Json where
  | null
  | bool (b : Bool)
  | num (n : Int)
  | str (s : String)
  | arr (elems : List Json)
  | obj (fields : List (String × Json))

/-- Python `==` restricted to the hashable JSON scalars.  Python's `bool`
is a subtype of `int`: `True == 1` and `False == 0` hold (and the hashes
agree), so a boolean and its numeric value collide as dict keys.  The
dictionary operations below only ever compare keys that passed the
hashability check (Python raises `TypeError: unhashable type` for
list/dict keys before any comparison happens), so arrays and objects are
never compared. -/
def Json.scalarEq : Json → Json → Bool
  | .null, .null => true
  | .bool a, .bool b => a = b
  | .num a, .num b => a = b
  | .str a, .str b => a = b
  | .bool a, .num b => (if a then (1 : Int) else 0) = b
  | .num a, .bool b => a = (if b then (1 : Int) else 0)
  | _, _ => false

/-- Whether a JSON value is usable as a Python dict key (hashable). -/
def Json.hashable : Json → Bool
  | .arr _ => false
  | .obj _ => false
  | _ => true

def Json.isObj : Json → Bool
  | .obj _ => true
  | _ => false

/-- Python truthiness of a decoded JSON value. -/
def Json.truthy : Json → Bool
  | .null => false
  | .bool b => b
  | .num n => !(n = 0)
  | .str s => !(s = "")
  | .arr xs => !(xs.isEmpty)
  | .obj fs => !(fs.isEmpty)

/-- Python truthiness of an optional value (`None` is falsy). -/
def optTruthy : Option Json → Bool
  | none => false
  | some j => j.truthy

/-- Python dict insertion keyed by a (hashable) JSON value.  On a collision
with an `==`-equal key, Python keeps the originally inserted key and only
replaces the value (visible when `True` collides with `1`). -/
def dictSetJ : List (Json × Json) → Json → Json → List (Json × Json)
  | [], k, v => [(k, v)]
  | p :: rest, k, v => if Json.scalarEq p.1 k then (p.1, v) :: rest else p :: dictSetJ rest k v

/-! ## The exception taxonomy of webrequest.py (lines 405-474)

Every response exception class carries the `status_code` given to its
constructor (`WebRequestResponseException.__init__`, lines 412-419).
`webRequestResponse` is the catch-all base class raised for unmapped
status codes. -/

inductive WebExc where
  | badRequest (status_code : Nat)
  | unauthorized (status_code : Nat)
  | accessForbidden (status_code : Nat)
  | notFound (status_code : Nat)
  | methodNotAllowed (status_code : Nat)
  | notAcceptable (status_code : Nat)
  | requestTimeout (status_code : Nat)
  | conflict (status_code : Nat)
  | unsupportedMediaType (status_code : Nat)
  | invalidContentLength (status_code : Nat)
  | internalServer (status_code : Nat)
  | serviceUnavailable (status_code : Nat)
  | webRequestResponse (status_code : Nat)
  deriving DecidableEq

/-- The `status_code` attribute stored by the base-class constructor. -/
def WebExc.status_code : WebExc → Nat
  | .badRequest sc => sc
  | .unauthorized sc => sc
  | .accessForbidden sc => sc
  | .notFound sc => sc
  | .methodNotAllowed sc => sc
  | .notAcceptable sc => sc
  | .requestTimeout sc => sc
  | .conflict sc => sc
  | .unsupportedMediaType sc => sc
  | .invalidContentLength sc => sc
  | .internalServer sc => sc
  | .serviceUnavailable sc => sc
  | .webRequestResponse sc => sc

/-- `isinstance(ex, UnauthorizedException)`. -/
def WebExc.isUnauthorized : WebExc → Bool
  | .unauthorized _ => true
  | _ => false

/-- `status_code_to_exception` (webrequest.py lines 367-402): the cascade of
`if status_code == c: raise ...` statements, ending in the catch-all
`WebRequestResponseException`.  The value returned here is the exception
that the Python function raises. -/
def status_code_to_exception (status_code : Nat) : WebExc :=
  if status_code = 400 then .badRequest status_code
  else if status_code = 401 then .unauthorized status_code
  else if status_code = 403 then .accessForbidden status_code
  else if status_code = 404 then .notFound status_code
  else if status_code = 405 then .methodNotAllowed status_code
  else if status_code = 406 then .notAcceptable status_code
  else if status_code = 408 then .requestTimeout status_code
  else if status_code = 409 then .conflict status_code
  else if status_code = 415 then .unsupportedMediaType status_code
  else if status_code = 416 then .invalidContentLength status_code
  else if status_code = 500 then .internalServer status_code
  else if status_code = 503 then .serviceUnavailable status_code
  else .webRequestResponse status_code

/-- The status codes that have their own exception class. -/
def mappedCodes : List Nat := [400, 401, 403, 404, 405, 406, 408, 409, 415, 416, 500, 503]

/-! ## Responses and `invoke_and_handle` -/

/-- A completed HTTP response, as the requests package hands it to the code.
`decoded` is the outcome of `response.json()`: `some` a decoded value, or
`none` when decoding raises.  `text` and `content` carry `response.text`
and `response.content` (the latter kept opaquely as a string of bytes). -/
structure Response where
  status_code : Nat
  headers : List (String × String)
  text : String
  content : String
  decoded : Option Json

/-- `requests.models.Response.ok`: true unless `raise_for_status` would
raise, i.e. unless `400 <= status_code < 600`. -/
def Response.ok (r : Response) : Bool :=
  decide (¬ (400 ≤ r.status_code ∧ r.status_code < 600))

/-- A Python value that `invoke_and_handle` can hand back as the body:
a `str` (the empty 204 body or the raw-text decode fallback), the raw
`bytes` of `response.content`, or a decoded JSON value. -/
inductive BodyData where
  | strVal (s : String)
  | bytesVal (s : String)
  | jsonVal (j : Json)

/-- The shape of a successful `invoke_and_handle` result: the body alone, or
the `(status_code, headers, data)` tuple when `as_tuple` is set. -/
inductive HandleOut where
  | single (d : BodyData)
  | tuple (status_code : Nat) (headers : List (String × String)) (d : BodyData)

def HandleOut.data : HandleOut → BodyData
  | .single d => d
  | .tuple _ _ d => d

/-- `WebRequester.invoke_and_handle` (webrequest.py lines 263-283), given the
response the network returned for the request.  On `response.ok`: an empty
body for 204, otherwise the decoded JSON with raw-text fallback when
`decode_response` is set, else the raw content; wrapped in a tuple when
`as_tuple` is set.  Otherwise the exception chosen by
`status_code_to_exception` is raised. -/
def invoke_and_handle (r : Response) (decode_response : Bool) (as_tuple : Bool) :
    Except WebExc HandleOut :=
  if r.ok then
    let response_data : BodyData :=
      if r.status_code ≠ 204 then
        if decode_response then
          match r.decoded with
          | some j => .jsonVal j
          | none => .strVal r.text
        else .bytesVal r.content
      else .strVal ""
    if as_tuple then .ok (.tuple r.status_code r.headers response_data)
    else .ok (.single response_data)
  else .error (status_code_to_exception r.status_code)

/-! ## WebRequester state -/

/-- Header maps: Python dicts from header name to header value, where a
value is a `str` (`some`) or `None` (`none`). -/
abbrev Headers := List (String × Option String)

inductive AuthKind where
  | basic (username password : Option String)
  | digest (username password : Option String)
  deriving DecidableEq

/-- The mutable attributes of a `WebRequester` instance that the claims are
about.  `session_headers`/`session_auth` model the requests session's own
header map and auth; `session_headers = none` stands for the library's
default headers, which the code has not touched and which we do not model. -/
structure WRState where
  base_url : List Char
  username : Option String
  password : Option String
  auth : Option AuthKind
  token : Option String
  token_header : Option String
  headers : Option Headers
  use_session : Bool
  session_headers : Option Headers
  session_auth : Option AuthKind

/-- `WebRequester.__init__` (webrequest.py lines 53-96): normalize the base
URL and leave every authorization/header attribute unset. -/
def initWR (base_url : List Char) (use_session : Bool) : WRState :=
  { base_url := normBase base_url
    username := none
    password := none
    auth := none
    token := none
    token_header := none
    headers := none
    use_session := use_session
    session_headers := none
    session_auth := none }

/-- `WebRequester.set_default_headers` (lines 98-109): replace the default
headers, and make them the session's header map when a session is used
(in Python the session then aliases the same dict object). -/
def set_default_headers (st : WRState) (h : Headers) : WRState :=
  { st with
    headers := some h
    session_headers := if st.use_session then some h else st.session_headers }

/-- The URL built by `WebRequester.invoke` (lines 183-186) on top of the
normalized `_base_url`. -/
def invokeUrl (st : WRState) (endpoint : List Char) : List Char :=
  if pyStartswith "/".toList endpoint then st.base_url ++ endpoint
  else st.base_url ++ '/' :: endpoint

/-- Constructor normalization followed by `invoke`'s concatenation. -/
def buildUrl (base_url endpoint : List Char) : List Char :=
  invokeUrl (initWR base_url false) endpoint

/-- The `request_headers` local of `WebRequester.invoke` (lines 188-190):
`self._headers.copy() if self._headers else {}`, then
`request_headers.update(headers)` when the per-call headers are truthy. -/
def request_headers (st : WRState) (call : Option Headers) : Headers :=
  let base : Headers :=
    match st.headers with
    | some d => if d = [] then [] else d
    | none => []
  match call with
  | some h => if h = [] then base else dictUpdate base h
  | none => base

/-- `requests.sessions.merge_setting` applied to headers: the session's
headers updated per-key by the per-request headers, after which keys whose
value is `None` are dropped. -/
def mergeSetting (session req : Headers) : Headers :=
  (dictUpdate session req).filter (fun p => p.2.isSome)

/-- The code-controlled headers the underlying HTTP request effectively
carries.  In non-session mode `invoke` passes `request_headers` to
`requests.request` (line 209).  In session mode it passes only the per-call
headers (line 201) and the requests library merges the session's header map
over them via `merge_setting`; when that map is still the library default
(`none`) the result is outside the model. -/
def sentHeaders (st : WRState) (call : Option Headers) : Option Headers :=
  if st.use_session then
    match st.session_headers with
    | some sh => some (mergeSetting sh ((call).getD []))
    | none => none
  else some (request_headers st call)

/-- Python truthiness of `self._token` in `set_authorization`. -/
def optStrTruthy : Option String → Bool
  | none => false
  | some s => !(s = "")

inductive PyExc where
  | web (e : WebExc)
  | attributeError
  | typeError
  | keyError (k : String)
  | generic (msg : String)
  deriving DecidableEq

/-- `WebRequester.set_authorization` (webrequest.py lines 111-145).  The
`Token` branch runs `self._headers.update(...)`: when `_headers` is still
`None` (its value at construction) this is an `AttributeError`.  Afterwards
the session, if used, gets the auth object or (elif) the token header. -/
def set_authorization (st : WRState) (auth_type : String)
    (username password token : Option String) (token_header : String) :
    Except PyExc WRState :=
  let st1 : WRState :=
    { st with
      username := username
      password := password
      token := token
      token_header := some token_header }
  let step : Except PyExc WRState :=
    if pyLower auth_type = "basic" then
      .ok { st1 with auth := some (.basic username password) }
    else if pyLower auth_type = "digest" then
      .ok { st1 with auth := some (.digest username password) }
    else if pyLower auth_type = "token" then
      match st1.headers with
      | none => .error .attributeError
      | some hs => .ok { st1 with headers := some (dictSet hs token_header token) }
    else .ok st1
  match step with
  | .error e => .error e
  | .ok st2 =>
    if st2.use_session then
      match st2.auth with
      | some a => .ok { st2 with session_auth := some a }
      | none =>
        if optStrTruthy st2.token then
          .ok { st2 with
                session_headers := (st2.session_headers).map
                  (fun sh => dictSet sh token_header token) }
        else .ok st2
    else .ok st2

/-! ## The API client of template_api_client.py -/

/-- The `Endpoints` enum values (template_api_client.py lines 27-30). -/
def authEndpoint : String := "/api/api-token-auth/"

def refreshEndpoint : String := "/api/api-token-refresh/"

def resourceEndpoint : String := "/api/resource/"

/-- A request issued through the webrequester, for tracing which calls the
client makes and in which order. -/
structure Req where
  method : String
  endpoint : String
  json : Option Json

/-- The mutable attributes of a `Client` instance.  `token` is `_token`: a
decoded JSON value once assigned (the handshake stores `_output["token"]`
before checking its type), `none` at construction and after invalidation. -/
structure ClientState where
  username : String
  password : String
  token : Option Json
  wr : WRState

/-- The default headers `Client.__init__` installs (lines 74-78). -/
def defaultClientHeaders : Headers :=
  [("Accept", some "application/json"),
   ("Content-Type", some "application/json"),
   ("Cache-Control", some "no-cache")]

/-- `Client.__init__` (template_api_client.py lines 48-78). -/
def initClient (base_url : List Char) (username password : String)
    (use_session : Bool) : ClientState :=
  { username := username
    password := password
    token := none
    wr := set_default_headers (initWR base_url use_session) defaultClientHeaders }

/-- Python `"token" in _output` for the values `invoke_and_handle` can
return: key membership on a dict, substring containment on a str, element
membership on a list; other operand types raise `TypeError`. -/
def pyContainsTokenKey : BodyData → Except PyExc Bool
  | .strVal s => .ok (containsSeq "token".toList s.toList)
  | .bytesVal _ => .error .typeError
  | .jsonVal (.obj fs) => .ok (dictHasKey fs "token")
  | .jsonVal (.arr xs) => .ok (xs.any (fun j => Json.scalarEq j (.str "token")))
  | .jsonVal (.str s) => .ok (containsSeq "token".toList s.toList)
  | .jsonVal _ => .error .typeError

/-- Python `_output["token"]`: dict lookup (raising `KeyError` when absent);
subscripting any non-dict value the handshake can see raises `TypeError`. -/
def pyGetTokenItem : BodyData → Except PyExc Json
  | .jsonVal (.obj fs) =>
    match dictLookup fs "token" with
    | some v => .ok v
    | none => .error (.keyError "token")
  | _ => .error .typeError

/-- The response-processing part of `__get_or_refresh_token` (lines 98-109),
after the POST has been issued: require a `token` member in the decoded
output (otherwise `Exception("Failed to get or refresh token...")`), store
it, and attach `"Bearer " + token` via `set_authorization("Token", ...)`
under the default `Authorization` header name.  A non-str token value is
stored but then breaks the `"Bearer " +` concatenation with a `TypeError`. -/
def handshakeOutcome (cst : ClientState) (resp : Response) :
    Except PyExc String × ClientState :=
  match invoke_and_handle resp true false with
  | .error e => (.error (.web e), cst)
  | .ok out =>
    match pyContainsTokenKey out.data with
    | .error e => (.error e, cst)
    | .ok false => (.error (.generic "Failed to get or refresh token"), cst)
    | .ok true =>
      match pyGetTokenItem out.data with
      | .error e => (.error e, cst)
      | .ok v =>
        let cst1 : ClientState := { cst with token := some v }
        match v with
        | .str tok =>
          match set_authorization cst1.wr "Token" (some cst1.username)
              (some cst1.password) (some ("Bearer " ++ tok)) "Authorization" with
          | .ok wr1 => (.ok tok, { cst1 with wr := wr1 })
          | .error e => (.error e, cst1)
        | _ => (.error .typeError, cst1)

/-- `Client.__get_or_refresh_token` (template_api_client.py lines 86-109),
given the response the server returns for the POST: build the JSON body for
the endpoint, issue the POST, and process the response via
`handshakeOutcome`.  Returns the raised-or-returned value, the client
state, and the requests issued. -/
def getOrRefreshToken (cst : ClientState) (endpoint : String) (resp : Response) :
    Except PyExc String × ClientState × List Req :=
  if endpoint = authEndpoint ∨ endpoint = refreshEndpoint then
    let json_body : Json :=
      if endpoint = authEndpoint then
        .obj [("username", .str cst.username), ("password", .str cst.password)]
      else .obj [("token", (cst.token).getD .null)]
    let req : Req := { method := "POST", endpoint := endpoint, json := some json_body }
    ((handshakeOutcome cst resp).1, (handshakeOutcome cst resp).2, [req])
  else (.error (.generic ("Unknown token endpoint: " ++ endpoint)), cst, [])

/-- The key chosen by the `as_dict` comprehension for one item:
`_item["key"] if "key" in _item else _item["name"]` (lines 145-146);
`none` when the item is an object with neither member. -/
def itemChosenKey : Json → Option Json
  | .obj fs => if dictHasKey fs "key" then dictLookup fs "key" else dictLookup fs "name"
  | _ => none

/-- One step of the `as_dict` dict comprehension on one item of the decoded
collection: pick the key (a missing `name` member is a `KeyError`, a
non-dict item a `TypeError`), require it hashable, and insert. -/
def reshapeStep (acc : List (Json × Json)) (it : Json) :
    Except PyExc (List (Json × Json)) :=
  match it with
  | .obj fs =>
    let kres : Except PyExc Json :=
      if dictHasKey fs "key" then
        match dictLookup fs "key" with
        | some v => .ok v
        | none => .error (.keyError "key")
      else
        match dictLookup fs "name" with
        | some v => .ok v
        | none => .error (.keyError "name")
    match kres with
    | .error e => .error e
    | .ok k => if k.hashable then .ok (dictSetJ acc k it) else .error .typeError
  | _ => .error .typeError

def reshapeItems (acc : List (Json × Json)) :
    List Json → Except PyExc (List (Json × Json))
  | [] => .ok acc
  | it :: rest =>
    match reshapeStep acc it with
    | .error e => .error e
    | .ok acc1 => reshapeItems acc1 rest

/-- The `as_dict` reshaping `{..._item... for _item in _output}` of
`Client.get_resource` (lines 144-146).  Iterating a decoded JSON array
visits its elements; iterating an empty dict, str or bytes body visits
nothing; iterating anything else only yields values whose subscripting
raises `TypeError` (dict keys, characters, ints), or is itself a
`TypeError`. -/
def reshapeAsDict : BodyData → Except PyExc (List (Json × Json))
  | .jsonVal (.arr xs) => reshapeItems [] xs
  | .jsonVal (.obj []) => .ok []
  | .jsonVal (.str "") => .ok []
  | .strVal "" => .ok []
  | .bytesVal "" => .ok []
  | _ => .error .typeError

/-- The responses the server would give to the client's two possible
requests within one `get_resource` call. -/
structure NetOracle where
  authResp : Response
  resResp : Response

/-- What `get_resource` can return: the body as `invoke_and_handle` handed
it over, or the reshaped mapping when `as_dict` is set. -/
inductive ResourceOut where
  | body (d : BodyData)
  | dict (m : List (Json × Json))

/-- The lazy-authentication prefix of `Client.get_resource` (lines 128-129):
`if not self._token: self._token = self._get_token()`.  An exception from
`_get_token` propagates (the `try` block has not begun). -/
def authPhase (cst : ClientState) (net : NetOracle) :
    Except PyExc ClientState × ClientState × List Req :=
  if optTruthy cst.token then (.ok cst, cst, [])
  else
    match getOrRefreshToken cst authEndpoint net.authResp with
    | (.ok tok, c1, reqs) =>
      (.ok { c1 with token := some (.str tok) },
       { c1 with token := some (.str tok) }, reqs)
    | (.error e, c1, reqs) => (.error e, c1, reqs)

/-- The guarded resource request of `Client.get_resource` (lines 130-147):
one GET of `Endpoints.RESOURCE.value + str(resource)`; on an
`UnauthorizedException` the cached token is cleared before the same
exception is re-raised; on success the optional `as_dict` reshaping runs
outside the `try`. -/
def resourcePhase (c1 : ClientState) (net : NetOracle) (resource : String)
    (as_dict : Bool) : Except PyExc ResourceOut × ClientState × List Req :=
  let req : Req := { method := "GET", endpoint := resourceEndpoint ++ resource, json := none }
  match invoke_and_handle net.resResp true false with
  | .error e =>
    (.error (.web e),
     if e.isUnauthorized then { c1 with token := none } else c1,
     [req])
  | .ok out =>
    if as_dict then
      match reshapeAsDict out.data with
      | .ok m => (.ok (.dict m), c1, [req])
      | .error e => (.error e, c1, [req])
    else (.ok (.body out.data), c1, [req])

/-- `Client.get_resource` (template_api_client.py lines 111-147): the lazy
authenticate phase followed by the resource request. -/
def get_resource (cst : ClientState) (net : NetOracle) (resource : String)
    (as_dict : Bool) : Except PyExc ResourceOut × ClientState × List Req :=
  match authPhase cst net with
  | (.error e, c1, reqs) => (.error e, c1, reqs)
  | (.ok c1, _, reqs1) =>
    let r := resourcePhase c1 net resource as_dict
    (r.1, r.2.1, reqs1 ++ r.2.2)

/-- Pairwise distinctness (under Python `==`) of a list of chosen dict keys. -/
def keysDistinct : List Json → Bool
  | [] => true
  | k :: rest => rest.all (fun k2 => !(Json.scalarEq k k2)) && keysDistinct rest

/-! ## Concrete fixtures used by witnesses and counterexamples -/

/-- A client as built by `Client.__init__`, already holding a cached token. -/
def fixClient : ClientState :=
  { username := "usr"
    password := "pwd"
    token := some (.str "tok0")
    wr := set_default_headers (initWR "https://api.example.com".toList true)
            defaultClientHeaders }

def fixResp401 : Response := ⟨401, [], "", "", none⟩

def fixRespAuth : Response := ⟨200, [], "", "", some (.obj [("token", .str "abc")])⟩

def fixRespDup : Response :=
  ⟨200, [], "", "",
   some (.arr [.obj [("key", .str "a"), ("val", .num 1)],
               .obj [("key", .str "a"), ("val", .num 2)]])⟩

def fixRespBadKey : Response := ⟨200, [], "", "", some (.arr [.obj [("key", .arr [])]])⟩

def fixRespBoolNum : Response :=
  ⟨200, [], "", "",
   some (.arr [.obj [("key", .bool true)], .obj [("key", .num 1)]])⟩

def fixRespList : Response :=
  ⟨200, [], "", "",
   some (.arr [.obj [("key", .str "a"), ("val", .num 1)],
               .obj [("name", .str "b"), ("val", .num 2)]])⟩

def fixRespNoKey : Response := ⟨200, [], "", "", some (.arr [.obj [("val", .num 1)]])⟩

/-! ## Helper lemmas -/

lemma status_code_to_exception_unmapped (n : Nat) (hn : n ∉ mappedCodes) :
    status_code_to_exception n = .webRequestResponse n := by
  simp only [mappedCodes, List.mem_cons, List.not_mem_nil, or_false, not_or] at hn
  obtain ⟨e1, e2, e3, e4, e5, e6, e7, e8, e9, e10, e11, e12⟩ := hn
  unfold status_code_to_exception
  rw [if_neg e1, if_neg e2, if_neg e3, if_neg e4, if_neg e5, if_neg e6, if_neg e7,
    if_neg e8, if_neg e9, if_neg e10, if_neg e11, if_neg e12]

lemma status_code_to_exception_status (n : Nat) :
    (status_code_to_exception n).status_code = n := by
  by_cases hm : n ∈ mappedCodes
  · simp only [mappedCodes, List.mem_cons, List.not_mem_nil, or_false] at hm
    rcases hm with rfl | rfl | rfl | rfl | rfl | rfl | rfl | rfl | rfl | rfl | rfl | rfl <;> rfl
  · rw [status_code_to_exception_unmapped n hm]
    rfl

lemma Response.ok_eq_false {r : Response}
    (h : 400 ≤ r.status_code ∧ r.status_code < 600) : r.ok = false := by
  simp only [Response.ok, decide_eq_false_iff_not, not_not]
  exact h

lemma Response.ok_eq_true {r : Response} (h : r.status_code < 400) : r.ok = true := by
  simp only [Response.ok, decide_eq_true_eq]
  omega

lemma invoke_and_handle_error (r : Response) (d t : Bool)
    (h : 400 ≤ r.status_code ∧ r.status_code < 600) :
    invoke_and_handle r d t = .error (status_code_to_exception r.status_code) := by
  unfold invoke_and_handle
  rw [Response.ok_eq_false h]
  simp

lemma invoke_and_handle_2xx (r : Response) (j : Json)
    (h2 : 200 ≤ r.status_code ∧ r.status_code < 300)
    (h4 : r.status_code ≠ 204) (hd : r.decoded = some j) :
    invoke_and_handle r true false = .ok (.single (.jsonVal j)) := by
  unfold invoke_and_handle
  rw [Response.ok_eq_true (by omega), hd]
  simp [h4]

lemma toList_slash : "/".toList = ['/'] := rfl

lemma toList_dslash : "//".toList = ['/', '/'] := rfl

lemma suffix_singleton_iff {α : Type} (a : α) (l : List α) :
    [a] <:+ l ↔ l.getLast? = some a := by
  constructor
  · rintro ⟨t, rfl⟩
    exact List.getLast?_concat t
  · intro h
    rcases List.eq_nil_or_concat l with rfl | ⟨L, b, rfl⟩
    · simp at h
    · rw [List.concat_eq_append] at h ⊢
      rw [List.getLast?_concat] at h
      obtain rfl : b = a := by injection h
      exact ⟨L, rfl⟩

/-! ## C1 -/

/-- C1 (amended): for a failure response, i.e. one whose status code lies in
`[400, 600)` (the range `requests` treats as not-ok; other non-2xx codes
such as redirects are treated as success and returned normally),
`invoke_and_handle` raises exactly the exception `status_code_to_exception`
picks: the uniquely mapped variant for each code in `mappedCodes`, the
catch-all `webRequestResponse` otherwise; the raised exception's
`status_code` attribute equals the response's status code; and the failure
path never returns a value. -/
theorem c1_failure_dispatch (r : Response) (d t : Bool)
    (h : 400 ≤ r.status_code ∧ r.status_code < 600) :
    (∀ out, invoke_and_handle r d t ≠ .ok out) ∧
    invoke_and_handle r d t = .error (status_code_to_exception r.status_code) ∧
    (status_code_to_exception r.status_code).status_code = r.status_code ∧
    (r.status_code = 400 → invoke_and_handle r d t = .error (.badRequest r.status_code)) ∧
    (r.status_code = 401 → invoke_and_handle r d t = .error (.unauthorized r.status_code)) ∧
    (r.status_code = 403 → invoke_and_handle r d t = .error (.accessForbidden r.status_code)) ∧
    (r.status_code = 404 → invoke_and_handle r d t = .error (.notFound r.status_code)) ∧
    (r.status_code = 405 → invoke_and_handle r d t = .error (.methodNotAllowed r.status_code)) ∧
    (r.status_code = 406 → invoke_and_handle r d t = .error (.notAcceptable r.status_code)) ∧
    (r.status_code = 408 → invoke_and_handle r d t = .error (.requestTimeout r.status_code)) ∧
    (r.status_code = 409 → invoke_and_handle r d t = .error (.conflict r.status_code)) ∧
    (r.status_code = 415 → invoke_and_handle r d t = .error (.unsupportedMediaType r.status_code)) ∧
    (r.status_code = 416 → invoke_and_handle r d t = .error (.invalidContentLength r.status_code)) ∧
    (r.status_code = 500 → invoke_and_handle r d t = .error (.internalServer r.status_code)) ∧
    (r.status_code = 503 → invoke_and_handle r d t = .error (.serviceUnavailable r.status_code)) ∧
    (r.status_code ∉ mappedCodes →
      invoke_and_handle r d t = .error (.webRequestResponse r.status_code)) := by
  have he := invoke_and_handle_error r d t h
  refine ⟨?_, he, status_code_to_exception_status _,
    ?_, ?_, ?_, ?_, ?_, ?_, ?_, ?_, ?_, ?_, ?_, ?_, ?_⟩
  · intro out hc
    rw [he] at hc
    exact Except.noConfusion hc
  all_goals intro hc
  · rw [he, hc]; rfl
  · rw [he, hc]; rfl
  · rw [he, hc]; rfl
  · rw [he, hc]; rfl
  · rw [he, hc]; rfl
  · rw [he, hc]; rfl
  · rw [he, hc]; rfl
  · rw [he, hc]; rfl
  · rw [he, hc]; rfl
  · rw [he, hc]; rfl
  · rw [he, hc]; rfl
  · rw [he, hc]; rfl
  · rw [he, status_code_to_exception_unmapped _ hc]

/-- C1 counterexample: a 301 response is non-2xx, hence a "failure" as the
claim words it, yet `invoke_and_handle` raises nothing and returns a value
(`requests` counts every status below 400 as ok). -/
theorem c1_counterexample :
    invoke_and_handle ⟨301, [], "", "", none⟩ true false = .ok (.single (.strVal "")) ∧
    ¬ (200 ≤ 301 ∧ 301 < 300) ∧ 301 ∉ mappedCodes :=
  ⟨rfl, by decide, by decide⟩

/-- C1 witness at a concrete 404 response. -/
theorem c1_failure_dispatch_witness :
    (∀ out, invoke_and_handle ⟨404, [], "missing", "missing", none⟩ true false ≠ .ok out) ∧
    invoke_and_handle ⟨404, [], "missing", "missing", none⟩ true false =
      .error (status_code_to_exception 404) ∧
    (status_code_to_exception 404).status_code = 404 ∧
    (404 = 400 → invoke_and_handle ⟨404, [], "missing", "missing", none⟩ true false = .error (.badRequest 404)) ∧
    (404 = 401 → invoke_and_handle ⟨404, [], "missing", "missing", none⟩ true false = .error (.unauthorized 404)) ∧
    (404 = 403 → invoke_and_handle ⟨404, [], "missing", "missing", none⟩ true false = .error (.accessForbidden 404)) ∧
    (404 = 404 → invoke_and_handle ⟨404, [], "missing", "missing", none⟩ true false = .error (.notFound 404)) ∧
    (404 = 405 → invoke_and_handle ⟨404, [], "missing", "missing", none⟩ true false = .error (.methodNotAllowed 404)) ∧
    (404 = 406 → invoke_and_handle ⟨404, [], "missing", "missing", none⟩ true false = .error (.notAcceptable 404)) ∧
    (404 = 408 → invoke_and_handle ⟨404, [], "missing", "missing", none⟩ true false = .error (.requestTimeout 404)) ∧
    (404 = 409 → invoke_and_handle ⟨404, [], "missing", "missing", none⟩ true false = .error (.conflict 404)) ∧
    (404 = 415 → invoke_and_handle ⟨404, [], "missing", "missing", none⟩ true false = .error (.unsupportedMediaType 404)) ∧
    (404 = 416 → invoke_and_handle ⟨404, [], "missing", "missing", none⟩ true false = .error (.invalidContentLength 404)) ∧
    (404 = 500 → invoke_and_handle ⟨404, [], "missing", "missing", none⟩ true false = .error (.internalServer 404)) ∧
    (404 = 503 → invoke_and_handle ⟨404, [], "missing", "missing", none⟩ true false = .error (.serviceUnavailable 404)) ∧
    (404 ∉ mappedCodes →
      invoke_and_handle ⟨404, [], "missing", "missing", none⟩ true false = .error (.webRequestResponse 404)) :=
  c1_failure_dispatch ⟨404, [], "missing", "missing", none⟩ true false (by decide)

/-! ## C2 -/

/-- C2 (amended): when the `base_url` ends in exactly one slash (it has at
least two characters and does not end in `//`) and the endpoint starts with
exactly one slash, the built URL is the normalized base, exactly one
separating slash, and the rest of the endpoint — the normalized base does
not end in a slash and the endpoint remainder does not begin with one. -/
theorem c2_single_slash (base ep : List Char)
    (hb : pyEndswith "/".toList base = true)
    (hb2 : pyEndswith "//".toList base = false)
    (hlen : 2 ≤ base.length)
    (he : pyStartswith "/".toList ep = true)
    (he2 : pyStartswith "//".toList ep = false) :
    buildUrl base ep = normBase base ++ '/' :: ep.tail ∧
    (normBase base).getLast? ≠ some '/' ∧
    ep.tail.head? ≠ some '/' := by
  have heP : ['/'] <+: ep := by
    rw [pyStartswith, toList_slash] at he
    exact List.isPrefixOf_iff_prefix.mp he
  obtain ⟨t2, ht2⟩ := heP
  have hep : ep = '/' :: t2 := by rw [← ht2]; rfl
  have he2P : ¬ (['/', '/'] <+: ep) := by
    intro hc
    have hx := List.isPrefixOf_iff_prefix.mpr hc
    rw [pyStartswith, toList_dslash] at he2
    rw [he2] at hx
    exact Bool.false_ne_true hx
  have ht2h : t2.head? ≠ some '/' := by
    intro hc
    rcases t2 with _ | ⟨c, t3⟩
    · simp at hc
    · obtain rfl : c = '/' := by simpa using hc
      exact he2P (by rw [hep]; exact ⟨t3, rfl⟩)
  have hbS : ['/'] <:+ base := by
    rw [pyEndswith, toList_slash] at hb
    exact List.isSuffixOf_iff_suffix.mp hb
  have hb2S : ¬ (['/', '/'] <:+ base) := by
    intro hc
    have hx := List.isSuffixOf_iff_suffix.mpr hc
    rw [pyEndswith, toList_dslash] at hb2
    rw [hb2] at hx
    exact Bool.false_ne_true hx
  have hlast : base.getLast? = some '/' := (suffix_singleton_iff _ _).mp hbS
  rcases List.eq_nil_or_concat base with rfl | ⟨t, b, hbase⟩
  · simp at hlast
  rw [List.concat_eq_append] at hbase
  subst hbase
  obtain rfl : b = '/' := by
    rw [List.getLast?_concat] at hlast
    injection hlast
  have htne : t ≠ [] := by
    intro hc
    subst hc
    simp at hlen
  have htl : t.getLast? ≠ some '/' := by
    intro hc
    obtain ⟨s, hs⟩ := (suffix_singleton_iff '/' t).mpr hc
    exact hb2S ⟨s, by rw [← hs]; simp⟩
  have hstrip : stripTrailing (t ++ ['/']) = t := by
    rw [stripTrailing, if_pos (List.getLast?_concat t)]
    exact List.dropLast_concat
  have hnlast : (normBase (t ++ ['/'])).getLast? = t.getLast? := by
    rw [normBase, hstrip]
    split_ifs
    · rfl
    · exact List.getLast?_append_of_ne_nil _ htne
  refine ⟨?_, ?_, ?_⟩
  · rw [buildUrl, invokeUrl]
    have hbu : (initWR (t ++ ['/']) false).base_url = normBase (t ++ ['/']) := rfl
    rw [hbu, if_pos ?_]
    · rw [hep]
      rfl
    · rw [pyStartswith, toList_slash]
      rw [hep]
      exact List.isPrefixOf_iff_prefix.mpr ⟨t2, rfl⟩
  · rw [hnlast]
    exact htl
  · rw [hep]
    simpa using ht2h

/-- C2 counterexample: a base URL ending in `//` still ends in `/` and an
endpoint starting with `/` still starts with `/`, yet the built URL keeps
two separating slashes at the junction (constructor normalization strips
only one trailing slash). -/
theorem c2_counterexample :
    pyEndswith "/".toList "example.com//".toList = true ∧
    pyStartswith "/".toList "/e".toList = true ∧
    buildUrl "example.com//".toList "/e".toList = "https://example.com//e".toList ∧
    pyEndswith "/".toList (normBase "example.com//".toList) = true ∧
    containsSeq "//".toList (List.drop 8 (buildUrl "example.com//".toList "/e".toList)) = true := by
  decide

/-- C2 witness at a concrete single-slash pair. -/
theorem c2_single_slash_witness :
    buildUrl "https://example.com/".toList "/api".toList =
      normBase "https://example.com/".toList ++ '/' :: "/api".toList.tail ∧
    (normBase "https://example.com/".toList).getLast? ≠ some '/' ∧
    "/api".toList.tail.head? ≠ some '/' :=
  c2_single_slash _ _ (by decide) (by decide) (by decide) (by decide) (by decide)

/-! ## C4 -/

/-- C4: a 204 response always yields an empty body, whatever the
`decode_response` flag says, and the tuple form carries the same empty data
component. -/
theorem c4_no_content_empty_body (r : Response) (d t : Bool)
    (h : r.status_code = 204) :
    invoke_and_handle r d t =
      .ok (if t then .tuple 204 r.headers (.strVal "") else .single (.strVal "")) := by
  have hok : r.ok = true := Response.ok_eq_true (by omega)
  unfold invoke_and_handle
  rw [hok, h]
  cases t <;> simp

/-- C4 witness: a 204 response with non-empty text, content and decode
result still comes back with the empty-string body. -/
theorem c4_no_content_empty_body_witness :
    invoke_and_handle ⟨204, [("X", "y")], "stale", "stale", some (.str "stale")⟩ false true =
      .ok (.tuple 204 [("X", "y")] (.strVal "")) :=
  c4_no_content_empty_body ⟨204, [("X", "y")], "stale", "stale", some (.str "stale")⟩ false true rfl

/-! ## C7 -/

/-- C7: for a successful 2xx (non-204) response with `decode_response` set,
a failing JSON decode falls back to returning the raw text — the result is
a normal return (never an exception). -/
theorem c7_decode_fallback (r : Response) (t : Bool)
    (h2 : 200 ≤ r.status_code ∧ r.status_code < 300)
    (h4 : r.status_code ≠ 204) (hd : r.decoded = none) :
    invoke_and_handle r true t =
      .ok (if t then .tuple r.status_code r.headers (.strVal r.text)
           else .single (.strVal r.text)) := by
  have hok : r.ok = true := Response.ok_eq_true (by omega)
  unfold invoke_and_handle
  rw [hok, hd]
  cases t <;> simp [h4]

/-- C7 witness at a concrete 200 response whose body fails to decode. -/
theorem c7_decode_fallback_witness :
    invoke_and_handle ⟨200, [], "not json", "not json", none⟩ true false =
      .ok (.single (.strVal "not json")) :=
  c7_decode_fallback ⟨200, [], "not json", "not json", none⟩ false
    (by decide) (by decide) rfl

/-! ## Dictionary lemmas -/

lemma mem_dictSet {α : Type} {d : List (String × α)} {k : String} {v : α}
    {p : String × α} (hp : p ∈ dictSet d k v) : p = (k, v) ∨ p ∈ d := by
  induction d with
  | nil => simpa [dictSet] using hp
  | cons q rest ih =>
    rw [dictSet] at hp
    by_cases hq : q.1 = k
    · rw [if_pos hq] at hp
      rcases List.mem_cons.mp hp with rfl | h
      · exact Or.inl rfl
      · exact Or.inr (List.mem_cons_of_mem _ h)
    · rw [if_neg hq] at hp
      rcases List.mem_cons.mp hp with rfl | h
      · exact Or.inr (List.mem_cons_self _ _)
      · rcases ih h with h1 | h1
        · exact Or.inl h1
        · exact Or.inr (List.mem_cons_of_mem _ h1)

lemma dictUpdate_nil {α : Type} (d : List (String × α)) : dictUpdate d [] = d := rfl

lemma dictUpdate_cons {α : Type} (d : List (String × α)) (q : String × α)
    (u : List (String × α)) :
    dictUpdate d (q :: u) = dictUpdate (dictSet d q.1 q.2) u := rfl

lemma dictUpdate_isSome {d u : Headers}
    (hd : ∀ p ∈ d, p.2.isSome = true) (hu : ∀ p ∈ u, p.2.isSome = true) :
    ∀ p ∈ dictUpdate d u, p.2.isSome = true := by
  induction u generalizing d with
  | nil => simpa [dictUpdate_nil] using hd
  | cons q u ih =>
    intro p hp
    rw [dictUpdate_cons] at hp
    refine ih ?_ ?_ p hp
    · intro p2 hp2
      rcases mem_dictSet hp2 with rfl | h2
      · exact hu q (List.mem_cons_self _ _)
      · exact hd p2 h2
    · intro p2 hp2
      exact hu p2 (List.mem_cons_of_mem _ hp2)

lemma dictHasKey_eq_isSome {α : Type} (fs : List (String × α)) (k : String) :
    dictHasKey fs k = (dictLookup fs k).isSome := by
  induction fs with
  | nil => rfl
  | cons p rest ih => by_cases hp : p.1 = k <;> simp [dictHasKey, dictLookup, hp, ih]

lemma dictLookup_dictSet_self {α : Type} (d : List (String × α)) (k : String) (v : α) :
    dictLookup (dictSet d k v) k = some v := by
  induction d with
  | nil => simp [dictSet, dictLookup]
  | cons p rest ih => by_cases hp : p.1 = k <;> simp [dictSet, dictLookup, hp, ih]

lemma pyLower_Token : pyLower "Token" = "token" := rfl

/-! ## C5 -/

/-- C5: in both the session and the non-session mode, the headers the
underlying HTTP request effectively carries are the default headers (as set
by `set_default_headers`) shallow-copied and then overridden key-by-key by
the per-call headers.  (The hypotheses say all header values are actual
strings, which is what the code ever stores; the requests library would
drop `None`-valued entries during the session merge.) -/
theorem c5_header_merge (base : List Char) (us : Bool) (d h : Headers)
    (hd : ∀ p ∈ d, p.2.isSome = true) (hh : ∀ p ∈ h, p.2.isSome = true) :
    sentHeaders (set_default_headers (initWR base us) d) (some h) =
      some (dictUpdate d h) := by
  have hmerge : ∀ p ∈ dictUpdate d h, p.2.isSome = true := dictUpdate_isSome hd hh
  cases us with
  | false =>
    by_cases hD : d = [] <;> by_cases hH : h = [] <;>
      simp [sentHeaders, set_default_headers, initWR, request_headers, hD, hH,
        dictUpdate_nil]
  | true =>
    simp only [sentHeaders, set_default_headers, initWR, mergeSetting,
      Option.getD_some, if_true]
    rw [List.filter_eq_self.mpr hmerge]

/-- C5 witness: one overridden key, one inherited key, one added key, in
session mode. -/
theorem c5_header_merge_witness :
    sentHeaders
        (set_default_headers (initWR "https://h".toList true)
          [("Accept", some "application/json"), ("Cache-Control", some "no-cache")])
        (some [("Accept", some "text/xml"), ("X-Extra", some "1")]) =
      some (dictUpdate [("Accept", some "application/json"), ("Cache-Control", some "no-cache")]
        [("Accept", some "text/xml"), ("X-Extra", some "1")]) :=
  c5_header_merge "https://h".toList true _ _ (by decide) (by decide)

/-! ## C9 -/

/-- C9: calling `set_authorization` with auth type `Token` on a freshly
constructed `WebRequester` — before any `set_default_headers` call, so the
default-headers attribute is still `None` — raises an `AttributeError`
(`None.update`) instead of attaching the token header. -/
theorem c9_token_auth_requires_headers (base : List Char) (us : Bool)
    (u p tok : Option String) (th : String) :
    set_authorization (initWR base us) "Token" u p tok th = .error .attributeError := by
  simp [set_authorization, initWR, pyLower_Token]

/-! ## Client-level helper lemmas -/

lemma getOrRefreshToken_auth (cst : ClientState) (r : Response) :
    getOrRefreshToken cst authEndpoint r =
      ((handshakeOutcome cst r).1, (handshakeOutcome cst r).2,
       [{ method := "POST", endpoint := authEndpoint,
          json := some (.obj [("username", .str cst.username),
                              ("password", .str cst.password)]) }]) := by
  unfold getOrRefreshToken
  rw [if_pos (Or.inl rfl), if_pos rfl]

lemma resourcePhase_reqs (c1 : ClientState) (net : NetOracle) (res : String)
    (ad : Bool) :
    (resourcePhase c1 net res ad).2.2 =
      [{ method := "GET", endpoint := resourceEndpoint ++ res, json := none }] := by
  unfold resourcePhase
  cases hI : invoke_and_handle net.resResp true false with
  | error e => simp [hI]
  | ok out =>
    by_cases had : ad
    · cases hR : reshapeAsDict out.data with
      | error e => simp [hI, had, hR]
      | ok m => simp [hI, had, hR]
    · simp [hI, had]

lemma invoke_and_handle_401 (r : Response) (h : r.status_code = 401) :
    invoke_and_handle r true false = .error (.unauthorized 401) := by
  rw [invoke_and_handle_error r true false (by omega), h]
  rfl

/-! ## C3 -/

/-- C3: when the resource request of `get_resource` comes back 401, the
call re-raises the same `UnauthorizedException` (no retry: exactly one GET
is issued), the cached token is reset to `None` as a side effect, and the
next `get_resource` call, seeing no cached token, issues the authenticate
POST (with the stored credentials) before any resource request. -/
theorem c3_unauthorized_invalidation (cst : ClientState) (net net2 : NetOracle)
    (res res2 : String) (ad ad2 : Bool)
    (htok : optTruthy cst.token = true)
    (h401 : net.resResp.status_code = 401) :
    (get_resource cst net res ad).1 = .error (.web (.unauthorized 401)) ∧
    (get_resource cst net res ad).2.1.token = none ∧
    (get_resource cst net res ad).2.2 =
      [{ method := "GET", endpoint := resourceEndpoint ++ res, json := none }] ∧
    (get_resource (get_resource cst net res ad).2.1 net2 res2 ad2).2.2.head? =
      some { method := "POST", endpoint := authEndpoint,
             json := some (.obj [("username", .str cst.username),
                                 ("password", .str cst.password)]) } := by
  have hI := invoke_and_handle_401 net.resResp h401
  have hG : get_resource cst net res ad =
      (.error (.web (.unauthorized 401)), { cst with token := none },
       [{ method := "GET", endpoint := resourceEndpoint ++ res, json := none }]) := by
    unfold get_resource authPhase resourcePhase
    rw [if_pos htok, hI]
    simp [WebExc.isUnauthorized]
  have h4 : ∀ c2 : ClientState, c2.token = none → c2.username = cst.username →
      c2.password = cst.password →
      (get_resource c2 net2 res2 ad2).2.2.head? =
        some { method := "POST", endpoint := authEndpoint,
               json := some (.obj [("username", .str cst.username),
                                   ("password", .str cst.password)]) } := by
    intro c2 ht hu hp
    unfold get_resource authPhase
    rw [if_neg (by simp [ht, optTruthy]), getOrRefreshToken_auth]
    rcases hH : (handshakeOutcome c2 net2.authResp).1 with e | tok <;>
      simp [resourcePhase_reqs, hu, hp]
  exact ⟨by rw [hG], by rw [hG], by rw [hG], by rw [hG]; exact h4 _ rfl rfl rfl⟩

/-- C3 witness: a concrete client with a cached token, a 401 resource
response, then a second call against a working auth endpoint. -/
theorem c3_unauthorized_invalidation_witness :
    (get_resource fixClient ⟨fixRespAuth, fixResp401⟩ "" false).1 =
      .error (.web (.unauthorized 401)) ∧
    (get_resource fixClient ⟨fixRespAuth, fixResp401⟩ "" false).2.1.token = none ∧
    (get_resource fixClient ⟨fixRespAuth, fixResp401⟩ "" false).2.2 =
      [{ method := "GET", endpoint := resourceEndpoint ++ "", json := none }] ∧
    (get_resource (get_resource fixClient ⟨fixRespAuth, fixResp401⟩ "" false).2.1
        ⟨fixRespAuth, fixResp401⟩ "" false).2.2.head? =
      some { method := "POST", endpoint := authEndpoint,
             json := some (.obj [("username", .str "usr"), ("password", .str "pwd")]) } :=
  c3_unauthorized_invalidation fixClient ⟨fixRespAuth, fixResp401⟩ ⟨fixRespAuth, fixResp401⟩
    "" "" false false rfl rfl

lemma set_authorization_token_ok (st : WRState) (u p tokv : Option String)
    (hs : Headers) (hhs : st.headers = some hs) :
    ∃ wr1, set_authorization st "Token" u p tokv "Authorization" = .ok wr1 ∧
      wr1.headers = some (dictSet hs "Authorization" tokv) ∧
      wr1.token = tokv := by
  unfold set_authorization
  simp only [pyLower_Token]
  rw [if_pos trivial]
  simp only [hhs]
  by_cases hU : st.use_session
  · rcases hA : st.auth with _ | a
    · rcases hT : optStrTruthy tokv
      · simp [hU, hA, hT]
      · simp [hU, hA, hT]
    · simp [hU, hA]
  · simp [hU]

/-! ## C6 -/

/-- C6: in the token handshake (both the authenticate and the refresh
endpoint), a 2xx response whose decoded body is a JSON object without a
`token` member makes the operation raise the protocol error and leaves the
client state unchanged (no transition to Authenticated); with a (string)
`token` member, the token is stored on the client and
`Bearer <token>` is attached under the `Authorization` key of the default
headers used for subsequent calls.  (A non-string `token` member is stored
but the `"Bearer " +` concatenation then raises a `TypeError`.) -/
theorem c6_token_handshake (cst : ClientState) (ep : String) (resp : Response)
    (fs : List (String × Json)) (hs : Headers)
    (hep : ep = authEndpoint ∨ ep = refreshEndpoint)
    (hsc : 200 ≤ resp.status_code ∧ resp.status_code < 300)
    (h204 : resp.status_code ≠ 204)
    (hdec : resp.decoded = some (.obj fs))
    (hhs : cst.wr.headers = some hs) :
    (getOrRefreshToken cst ep resp).1 =
      (match dictLookup fs "token" with
       | some (Json.str tok) => .ok tok
       | some _ => .error .typeError
       | none => .error (.generic "Failed to get or refresh token")) ∧
    (getOrRefreshToken cst ep resp).2.1.token =
      (match dictLookup fs "token" with
       | some v => some v
       | none => cst.token) ∧
    (match dictLookup fs "token" with
     | some (Json.str tok) =>
       dictLookup (((getOrRefreshToken cst ep resp).2.1.wr.headers).getD [])
           "Authorization" = some (some ("Bearer " ++ tok))
     | _ => (getOrRefreshToken cst ep resp).2.1.wr = cst.wr) := by
  have hIH := invoke_and_handle_2xx resp (.obj fs) hsc h204 hdec
  have hk1 : (getOrRefreshToken cst ep resp).1 = (handshakeOutcome cst resp).1 := by
    rcases hep with rfl | rfl
    · rw [getOrRefreshToken_auth]
    · unfold getOrRefreshToken
      rw [if_pos (Or.inr rfl)]
  have hk2 : (getOrRefreshToken cst ep resp).2.1 = (handshakeOutcome cst resp).2 := by
    rcases hep with rfl | rfl
    · rw [getOrRefreshToken_auth]
    · unfold getOrRefreshToken
      rw [if_pos (Or.inr rfl)]
  rw [hk1, hk2]
  rcases hlook : dictLookup fs "token" with _ | v
  · have hHK : dictHasKey fs "token" = false := by
      rw [dictHasKey_eq_isSome, hlook]
      rfl
    have hEQ : handshakeOutcome cst resp =
        (.error (.generic "Failed to get or refresh token"), cst) := by
      unfold handshakeOutcome
      rw [hIH]
      simp [pyContainsTokenKey, HandleOut.data, hHK]
    rw [hEQ]
    exact ⟨rfl, rfl, rfl⟩
  · have hHK : dictHasKey fs "token" = true := by
      rw [dictHasKey_eq_isSome, hlook]
      rfl
    have hGT : pyGetTokenItem (BodyData.jsonVal (.obj fs)) = .ok v := by
      simp [pyGetTokenItem, hlook]
    cases v with
    | str tok =>
      obtain ⟨wr1, hW, hWh, hWt⟩ :=
        set_authorization_token_ok cst.wr (some cst.username) (some cst.password)
          (some ("Bearer " ++ tok)) hs hhs
      have hEQ : handshakeOutcome cst resp =
          (.ok tok, { cst with token := some (.str tok), wr := wr1 }) := by
        unfold handshakeOutcome
        rw [hIH]
        simp [pyContainsTokenKey, HandleOut.data, hHK, hGT, hW]
      rw [hEQ]
      refine ⟨rfl, rfl, ?_⟩
      simp only [hWh]
      rw [Option.getD_some, dictLookup_dictSet_self]
    | null =>
      have hEQ : handshakeOutcome cst resp =
          (.error .typeError, { cst with token := some .null }) := by
        unfold handshakeOutcome
        rw [hIH]
        simp [pyContainsTokenKey, HandleOut.data, hHK, hGT]
      rw [hEQ]
      exact ⟨rfl, rfl, rfl⟩
    | bool b =>
      have hEQ : handshakeOutcome cst resp =
          (.error .typeError, { cst with token := some (.bool b) }) := by
        unfold handshakeOutcome
        rw [hIH]
        simp [pyContainsTokenKey, HandleOut.data, hHK, hGT]
      rw [hEQ]
      exact ⟨rfl, rfl, rfl⟩
    | num n =>
      have hEQ : handshakeOutcome cst resp =
          (.error .typeError, { cst with token := some (.num n) }) := by
        unfold handshakeOutcome
        rw [hIH]
        simp [pyContainsTokenKey, HandleOut.data, hHK, hGT]
      rw [hEQ]
      exact ⟨rfl, rfl, rfl⟩
    | arr xs =>
      have hEQ : handshakeOutcome cst resp =
          (.error .typeError, { cst with token := some (.arr xs) }) := by
        unfold handshakeOutcome
        rw [hIH]
        simp [pyContainsTokenKey, HandleOut.data, hHK, hGT]
      rw [hEQ]
      exact ⟨rfl, rfl, rfl⟩
    | obj gs =>
      have hEQ : handshakeOutcome cst resp =
          (.error .typeError, { cst with token := some (.obj gs) }) := by
        unfold handshakeOutcome
        rw [hIH]
        simp [pyContainsTokenKey, HandleOut.data, hHK, hGT]
      rw [hEQ]
      exact ⟨rfl, rfl, rfl⟩

/-- C6 witness: a concrete handshake whose response carries
`{"token": "abc"}`. -/
theorem c6_token_handshake_witness :
    (getOrRefreshToken fixClient authEndpoint fixRespAuth).1 = .ok "abc" ∧
    (getOrRefreshToken fixClient authEndpoint fixRespAuth).2.1.token =
      some (.str "abc") ∧
    dictLookup (((getOrRefreshToken fixClient authEndpoint fixRespAuth).2.1.wr.headers).getD [])
        "Authorization" = some (some ("Bearer " ++ "abc")) :=
  c6_token_handshake fixClient authEndpoint fixRespAuth [("token", .str "abc")]
    defaultClientHeaders (Or.inl rfl) (by decide) (by decide) rfl rfl

/-! ## Reshaping lemmas -/

lemma Json.isObj_iff {j : Json} : j.isObj = true ↔ ∃ fs, j = .obj fs := by
  cases j <;> simp [Json.isObj]

lemma dictSetJ_fresh (d : List (Json × Json)) (k v : Json)
    (h : ∀ p ∈ d, Json.scalarEq p.1 k = false) :
    dictSetJ d k v = d ++ [(k, v)] := by
  induction d with
  | nil => rfl
  | cons q rest ih =>
    simp [dictSetJ, h q (List.mem_cons_self _ _),
      ih (fun p hp => h p (List.mem_cons_of_mem _ hp))]

lemma reshapeStep_obj (acc : List (Json × Json)) (fs : List (String × Json)) (k : Json)
    (hk : itemChosenKey (.obj fs) = some k) (hh : k.hashable = true) :
    reshapeStep acc (.obj fs) = .ok (dictSetJ acc k (.obj fs)) := by
  simp only [itemChosenKey] at hk
  simp only [reshapeStep]
  by_cases hK : dictHasKey fs "key"
  · rw [if_pos hK] at hk
    rw [if_pos hK, hk]
    simp [hh]
  · rw [if_neg hK] at hk
    rw [if_neg hK, hk]
    simp [hh]

lemma reshapeStep_obj_none (acc : List (Json × Json)) (fs : List (String × Json))
    (hk : itemChosenKey (.obj fs) = none) :
    reshapeStep acc (.obj fs) = .error (.keyError "name") := by
  simp only [itemChosenKey] at hk
  simp only [reshapeStep]
  by_cases hK : dictHasKey fs "key"
  · rw [if_pos hK] at hk
    rw [dictHasKey_eq_isSome, hk] at hK
    simp at hK
  · rw [if_neg hK] at hk
    rw [if_neg hK, hk]

lemma reshapeItems_ok (items : List Json) :
    ∀ acc : List (Json × Json),
      (∀ it ∈ items, Json.isObj it = true ∧
        ∃ k, itemChosenKey it = some k ∧ k.hashable = true) →
      keysDistinct (items.filterMap itemChosenKey) = true →
      (∀ p ∈ acc, ∀ it ∈ items, ∀ k, itemChosenKey it = some k →
        Json.scalarEq p.1 k = false) →
      reshapeItems acc items =
        .ok (acc ++ items.map (fun it => ((itemChosenKey it).getD .null, it))) := by
  induction items with
  | nil =>
    intro acc _ _ _
    simp [reshapeItems]
  | cons it rest ih =>
    intro acc hik hdis hfresh
    obtain ⟨hobj, k, hk, hhash⟩ := hik it (List.mem_cons_self _ _)
    obtain ⟨fs, rfl⟩ := Json.isObj_iff.mp hobj
    have hfr : ∀ p ∈ acc, Json.scalarEq p.1 k = false := fun p hp =>
      hfresh p hp (.obj fs) (List.mem_cons_self _ _) k hk
    rw [reshapeItems, reshapeStep_obj acc fs k hk hhash, dictSetJ_fresh acc k (.obj fs) hfr]
    simp only [List.filterMap_cons, hk, keysDistinct, Bool.and_eq_true] at hdis
    show reshapeItems (acc ++ [(k, Json.obj fs)]) rest = _
    rw [ih (acc ++ [(k, Json.obj fs)])
      (fun it2 h2 => hik it2 (List.mem_cons_of_mem _ h2)) hdis.2 ?_]
    · simp [hk]
    · intro p hp it2 h2 k2 hk2
      rcases List.mem_append.mp hp with hpa | hpb
      · exact hfresh p hpa it2 (List.mem_cons_of_mem _ h2) k2 hk2
      · obtain rfl : p = (k, Json.obj fs) := by simpa using hpb
        have hk2m : k2 ∈ rest.filterMap itemChosenKey :=
          List.mem_filterMap.mpr ⟨it2, h2, hk2⟩
        have hall := List.all_eq_true.mp hdis.1 k2 hk2m
        simpa using hall

lemma reshapeItems_keyError (items : List Json) :
    ∀ acc : List (Json × Json),
      (∀ it ∈ items, Json.isObj it = true) →
      (∀ it ∈ items, ∀ k, itemChosenKey it = some k → k.hashable = true) →
      (∃ it ∈ items, itemChosenKey it = none) →
      reshapeItems acc items = .error (.keyError "name") := by
  induction items with
  | nil =>
    intro acc _ _ hbad
    rcases hbad with ⟨it, h, _⟩
    simp at h
  | cons it rest ih =>
    intro acc hobj hkey hbad
    obtain ⟨fs, rfl⟩ := Json.isObj_iff.mp (hobj it (List.mem_cons_self _ _))
    rcases hK : itemChosenKey (.obj fs) with _ | k
    · rw [reshapeItems, reshapeStep_obj_none acc fs hK]
    · rw [reshapeItems,
        reshapeStep_obj acc fs k hK (hkey _ (List.mem_cons_self _ _) k hK)]
      refine ih (dictSetJ acc k (.obj fs)) ?_ ?_ ?_
      · exact fun it2 h2 => hobj it2 (List.mem_cons_of_mem _ h2)
      · exact fun it2 h2 => hkey it2 (List.mem_cons_of_mem _ h2)
      · rcases hbad with ⟨it2, h2, hn⟩
        rcases List.mem_cons.mp h2 with rfl | h2r
        · rw [hK] at hn
          exact absurd hn (by simp)
        · exact ⟨it2, h2r, hn⟩

lemma get_resource_asdict (cst : ClientState) (net : NetOracle) (res : String)
    (j : Json)
    (htok : optTruthy cst.token = true)
    (hsc : 200 ≤ net.resResp.status_code ∧ net.resResp.status_code < 300)
    (h204 : net.resResp.status_code ≠ 204)
    (hdec : net.resResp.decoded = some j) :
    (get_resource cst net res true).1 =
      (match reshapeAsDict (.jsonVal j) with
       | .ok m => .ok (.dict m)
       | .error e => .error e) := by
  have hI := invoke_and_handle_2xx net.resResp j hsc h204 hdec
  unfold get_resource authPhase resourcePhase
  rw [if_pos htok, hI]
  rcases hR : reshapeAsDict (.jsonVal j) with e | m <;> simp [hR, HandleOut.data]

/-! ## C8 -/

/-- C8 (amended): a resource collection fetched by `get_resource` with
`as_dict = True`, all of whose items are objects carrying a `key` member or
(failing that) a `name` member, comes back as the mapping that keys each
item by its `key` value — by its `name` value when `key` is absent —
provided the chosen key values are hashable and pairwise distinct; items
sharing a chosen key keep only the last one (Python dict overwrite), and an
unhashable (array/object) chosen key raises `TypeError` instead. -/
theorem c8_as_dict_mapping (cst : ClientState) (net : NetOracle) (res : String)
    (items : List Json)
    (htok : optTruthy cst.token = true)
    (hsc : 200 ≤ net.resResp.status_code ∧ net.resResp.status_code < 300)
    (h204 : net.resResp.status_code ≠ 204)
    (hdec : net.resResp.decoded = some (.arr items))
    (hik : items.all
      (fun it => it.isObj && ((itemChosenKey it).map Json.hashable).getD false) = true)
    (hdis : keysDistinct (items.filterMap itemChosenKey) = true) :
    (get_resource cst net res true).1 =
      .ok (.dict (items.map (fun it => ((itemChosenKey it).getD .null, it)))) := by
  rw [get_resource_asdict cst net res (.arr items) htok hsc h204 hdec]
  have hik' : ∀ it ∈ items, Json.isObj it = true ∧
      ∃ k, itemChosenKey it = some k ∧ k.hashable = true := by
    intro it hit
    have h := List.all_eq_true.mp hik it hit
    rcases hK : itemChosenKey it with _ | k
    · rw [hK] at h
      simp at h
    · rw [hK] at h
      simp only [Option.map_some', Option.getD_some, Bool.and_eq_true] at h
      exact ⟨h.1, k, rfl, h.2⟩
  have hR : reshapeAsDict (.jsonVal (.arr items)) =
      .ok (items.map (fun it => ((itemChosenKey it).getD .null, it))) := by
    have hmain := reshapeItems_ok items [] hik' hdis (by intro p hp; simp at hp)
    simpa [reshapeAsDict] using hmain
  rw [hR]

/-- C8 counterexample: with the cached-token client, two items that both
carry `"key": "a"` produce a one-entry mapping — the first item is not a
mapped value (Python dict overwrite); the same happens for keys `true` and
`1`, which Python's `==` and dict hashing identify (the originally
inserted key `True` is kept); and an item whose `key` value is a JSON
array makes the reshaping raise `TypeError` instead of returning a
mapping. -/
theorem c8_counterexample :
    (get_resource fixClient ⟨fixRespAuth, fixRespDup⟩ "" true).1 =
      .ok (.dict [(.str "a", .obj [("key", .str "a"), ("val", .num 2)])]) ∧
    (get_resource fixClient ⟨fixRespAuth, fixRespBoolNum⟩ "" true).1 =
      .ok (.dict [(.bool true, .obj [("key", .num 1)])]) ∧
    (get_resource fixClient ⟨fixRespAuth, fixRespBadKey⟩ "" true).1 =
      .error .typeError :=
  ⟨rfl, rfl, rfl⟩

/-- C8 witness at the spec's own example collection. -/
theorem c8_as_dict_mapping_witness :
    (get_resource fixClient ⟨fixRespAuth, fixRespList⟩ "" true).1 =
      .ok (.dict [(.str "a", .obj [("key", .str "a"), ("val", .num 1)]),
                  (.str "b", .obj [("name", .str "b"), ("val", .num 2)])]) :=
  c8_as_dict_mapping fixClient ⟨fixRespAuth, fixRespList⟩ ""
    [.obj [("key", .str "a"), ("val", .num 1)],
     .obj [("name", .str "b"), ("val", .num 2)]]
    rfl (by decide) (by decide) rfl (by decide) (by decide)

/-! ## C10 -/

/-- C10: when every item of the fetched collection is an object but some
item carries neither a `key` nor a `name` member (and the keys that do
exist are hashable), `get_resource` with `as_dict = True` raises a
`KeyError` instead of returning a mapping. -/
theorem c10_missing_key_error (cst : ClientState) (net : NetOracle) (res : String)
    (items : List Json)
    (htok : optTruthy cst.token = true)
    (hsc : 200 ≤ net.resResp.status_code ∧ net.resResp.status_code < 300)
    (h204 : net.resResp.status_code ≠ 204)
    (hdec : net.resResp.decoded = some (.arr items))
    (hobj : items.all Json.isObj = true)
    (hkey : items.all (fun it => ((itemChosenKey it).map Json.hashable).getD true) = true)
    (hbad : items.any (fun it => (itemChosenKey it).isNone) = true) :
    (get_resource cst net res true).1 = .error (.keyError "name") := by
  rw [get_resource_asdict cst net res (.arr items) htok hsc h204 hdec]
  have hobj' : ∀ it ∈ items, Json.isObj it = true := List.all_eq_true.mp hobj
  have hkey' : ∀ it ∈ items, ∀ k, itemChosenKey it = some k → k.hashable = true := by
    intro it hit k hk
    have h := List.all_eq_true.mp hkey it hit
    rw [hk] at h
    simpa using h
  have hbad' : ∃ it ∈ items, itemChosenKey it = none := by
    obtain ⟨it, hit, h⟩ := List.any_eq_true.mp hbad
    exact ⟨it, hit, Option.isNone_iff_eq_none.mp h⟩
  have hR : reshapeAsDict (.jsonVal (.arr items)) = .error (.keyError "name") := by
    have hmain := reshapeItems_keyError items [] hobj' hkey' hbad'
    simpa [reshapeAsDict] using hmain
  rw [hR]

/-- C10 witness: a single item with only a `val` member. -/
theorem c10_missing_key_error_witness :
    (get_resource fixClient ⟨fixRespAuth, fixRespNoKey⟩ "" true).1 =
      .error (.keyError "name") :=
  c10_missing_key_error fixClient ⟨fixRespAuth, fixRespNoKey⟩ "" [.obj [("val", .num 1)]]
    rfl (by decide) (by decide) rfl (by decide) (by decide) (by decide)

end PythonStuff
